import Mathlib

/-!
Verification development for the Impact Inference Engine of the
stocksense repository (`src/lib/webScraper.ts`, class `AIAnalysisEngine`).

The engine is a pure heuristic scorer over strings.  We embed it shallowly:
texts are lists of characters, JavaScript numbers are modelled as exact
rationals (every arithmetic operation used by the engine -- `+`, `-`, `*`,
`/`, `Math.min`, `Math.max`, `Math.abs`, `Math.round` -- is given its exact
rational meaning), and the one call to `Math.random()` is modelled as an
explicit stream of rational draws threaded through the pipeline.
String-valued narrative output (reasoning sentences, insights, risks,
opportunities) is modelled by inductive types whose constructors carry the
data interpolated into the corresponding template string; the branching and
list structure follows the source exactly.
-/

namespace Stocksense

/-- JavaScript word character (`\w` in a regex without the unicode flag):
ASCII letters, digits and underscore. -/
def isWordChar (c : Char) : Bool := c.isAlpha || c.isDigit || c == '_'

/-- ASCII lowercasing of a character, modelling `String.prototype.toLowerCase`
on the ASCII texts the engine handles. -/
def lowChar (c : Char) : Char := c.toLower

/-- Lowercase a Lean string (character-wise ASCII lowering). -/
def lowerStr (s : String) : String := String.mk (s.data.map lowChar)

/-- Is `pat` a prefix of `text`?  (Character-wise equality.) -/
def fitsAt : List Char → List Char → Bool
  | [], _ => true
  | _ :: _, [] => false
  | a :: as, b :: bs => a == b && fitsAt as bs

/-- JavaScript `text.includes(pat)`: substring containment. -/
def containsSub (pat : List Char) : List Char → Bool
  | [] => pat.isEmpty
  | c :: cs => fitsAt pat (c :: cs) || containsSub pat cs

/-- Does the lowercased combined text contain the (already lowercase)
keyword `kw`?  Models `text.includes(kw)`. -/
def hasKw (text : List Char) (kw : String) : Bool := containsSub kw.data text

/-- Number of keywords of `kws` occurring in `text`:
models `keywords.filter(k => text.includes(k)).length`. -/
def countKw (text : List Char) (kws : List String) : Nat :=
  (kws.filter (fun k => hasKw text k)).length

/-- A token of the regexes the engine builds with `new RegExp(word, 'g')`:
either a literal character or the `.` wildcard (any character except a
line terminator). -/
inductive RTok
  | lit (c : Char)
  | dot
deriving DecidableEq

/-- Does a regex token match a character?  The `.` wildcard matches any
character except the JavaScript line terminators. -/
def rtokFits (t : RTok) (c : Char) : Bool :=
  match t with
  | RTok.lit a => a == c
  | RTok.dot => !(c == '\n' || c == '\r' || c.val == 0x2028 || c.val == 0x2029)

/-- Compile a pattern into regex tokens: `.` becomes the wildcard, every
other character is literal.  (The name words fed to `new RegExp` by
`countCompanyMentions` contain no other regex metacharacters.) -/
def toPat (s : List Char) : List RTok :=
  s.map (fun c => if c == '.' then RTok.dot else RTok.lit c)

/-- Does the token pattern match at the head of the text? -/
def rFitsAt : List RTok → List Char → Bool
  | [], _ => true
  | _ :: _, [] => false
  | t :: ts, c :: cs => rtokFits t c && rFitsAt ts cs

/-- The scan of `countR`, structurally recursive on a fuel argument
(instantiated with the text length, which bounds the number of scan
steps). -/
def countRAux (pat : List RTok) : ℕ → List Char → ℕ
  | 0, _ => 0
  | _ + 1, [] => 0
  | fuel + 1, c :: cs =>
      if rFitsAt pat (c :: cs) then
        1 + countRAux pat fuel (cs.drop (pat.length - 1))
      else
        countRAux pat fuel cs

/-- Number of matches of a global regex over the text:
left-to-right scan, a match at a position consumes `pat.length` characters
(non-overlapping), exactly as `text.match(new RegExp(p, 'g')).length`. -/
def countR (pat : List RTok) (text : List Char) : ℕ :=
  countRAux pat text.length text

/-- The scan of `countTok`, structurally recursive on a fuel argument. -/
def countTokAux (pat : List Char) : ℕ → Option Char → List Char → ℕ
  | 0, _, _ => 0
  | _ + 1, _, [] => 0
  | fuel + 1, prev, c :: cs =>
      if fitsAt pat (c :: cs)
          && (match prev with | none => true | some p => !isWordChar p)
          && (match cs.drop (pat.length - 1) with
              | [] => true
              | d :: _ => !isWordChar d) then
        1 + countTokAux pat fuel pat.getLast? (cs.drop (pat.length - 1))
      else
        countTokAux pat fuel (some c) cs

/-- Number of matches of the word-bounded global regex
`new RegExp('\\b' + w + '\\b', 'g')` for a pattern consisting of word
characters only (the engine only uses lowercased tickers here): a match
needs the preceding character (`prev`) to be absent or a non-word
character, and the character following the match to be absent or a
non-word character. -/
def countTok (pat : List Char) (prev : Option Char) (text : List Char) : ℕ :=
  countTokAux pat text.length prev text

/-- `Math.round`: round half toward positive infinity. -/
def jsRound (x : ℚ) : ℤ := ⌊x + 1/2⌋

/-- `Math.round(x * 100) / 100`: rounding of monetary values to 2 decimals. -/
def round2 (x : ℚ) : ℚ := (jsRound (x * 100) : ℚ) / 100

/-! ## Reference data (transcribed from the source tables) -/

/-- A row of `COMPANY_DATABASE`. -/
structure Company where
  name : String
  sector : String
  marketCap : ℚ
deriving DecidableEq

/-- The static company registry `COMPANY_DATABASE`, in source order. -/
def COMPANY_DATABASE : List (String × Company) :=
  [ ("AAPL", ⟨"Apple Inc.", "Technology", 3000000000000⟩),
    ("MSFT", ⟨"Microsoft Corporation", "Technology", 2800000000000⟩),
    ("GOOGL", ⟨"Alphabet Inc.", "Technology", 1700000000000⟩),
    ("AMZN", ⟨"Amazon.com Inc.", "Consumer Discretionary", 1500000000000⟩),
    ("TSLA", ⟨"Tesla Inc.", "Consumer Discretionary", 800000000000⟩),
    ("META", ⟨"Meta Platforms Inc.", "Technology", 750000000000⟩),
    ("NVDA", ⟨"NVIDIA Corporation", "Technology", 1800000000000⟩),
    ("JPM", ⟨"JPMorgan Chase & Co.", "Financial Services", 450000000000⟩),
    ("JNJ", ⟨"Johnson & Johnson", "Healthcare", 400000000000⟩),
    ("V", ⟨"Visa Inc.", "Financial Services", 500000000000⟩),
    ("PG", ⟨"Procter & Gamble Co.", "Consumer Staples", 350000000000⟩),
    ("UNH", ⟨"UnitedHealth Group Inc.", "Healthcare", 480000000000⟩),
    ("HD", ⟨"The Home Depot Inc.", "Consumer Discretionary", 320000000000⟩),
    ("MA", ⟨"Mastercard Inc.", "Financial Services", 380000000000⟩),
    ("BAC", ⟨"Bank of America Corp.", "Financial Services", 280000000000⟩) ]

/-- Property access `COMPANY_DATABASE[ticker]`. -/
def lookupCompany (tk : String) : Option Company :=
  (COMPANY_DATABASE.find? (fun e => e.1 == tk)).map Prod.snd

/-- The sector keyword table `SECTOR_KEYWORDS`, in source order. -/
def SECTOR_KEYWORDS : List (String × List String) :=
  [ ("Technology", ["tech", "software", "ai", "artificial intelligence", "cloud",
      "digital", "innovation", "semiconductor", "chip"]),
    ("Healthcare", ["health", "medical", "pharmaceutical", "drug", "biotech",
      "clinical", "fda", "treatment"]),
    ("Financial Services", ["bank", "financial", "credit", "loan", "interest rate",
      "fed", "monetary", "payment"]),
    ("Consumer Discretionary", ["retail", "consumer", "shopping", "e-commerce",
      "automotive", "electric vehicle"]),
    ("Consumer Staples", ["food", "beverage", "household", "essential", "grocery"]),
    ("Energy", ["oil", "gas", "energy", "renewable", "solar", "wind", "petroleum"]),
    ("Industrials", ["manufacturing", "industrial", "aerospace", "defense",
      "transportation"]),
    ("Materials", ["mining", "metals", "chemicals", "materials", "commodities"]),
    ("Real Estate", ["real estate", "property", "reit", "housing", "construction"]),
    ("Utilities", ["utility", "electric", "power", "water", "gas utility"]) ]

/-- `SECTOR_KEYWORDS[sector] || []`. -/
def sectorKeywordsOf (sector : String) : List String :=
  ((SECTOR_KEYWORDS.find? (fun e => e.1 == sector)).map Prod.snd).getD []

/-- Positive sentiment keywords (`SENTIMENT_KEYWORDS.positive`), by tier. -/
def POS_STRONG : List String :=
  ["breakthrough", "record", "surge", "soar", "rally", "boom", "exceptional", "outstanding"]
def POS_MODERATE : List String :=
  ["growth", "increase", "rise", "gain", "improve", "positive", "strong", "beat"]
def POS_MILD : List String := ["stable", "steady", "maintain", "hold", "continue"]

/-- Negative sentiment keywords (`SENTIMENT_KEYWORDS.negative`), by tier. -/
def NEG_STRONG : List String :=
  ["crash", "plunge", "collapse", "disaster", "crisis", "bankruptcy", "scandal"]
def NEG_MODERATE : List String :=
  ["decline", "fall", "drop", "loss", "weak", "concern", "worry", "miss"]
def NEG_MILD : List String := ["caution", "uncertainty", "challenge", "pressure", "slow"]

/-- `getIndustryKeywords(sector)`: the secondary per-sector keyword table. -/
def getIndustryKeywords (sector : String) : List String :=
  if sector == "Technology" then
    ["innovation", "software", "hardware", "digital", "cloud", "AI", "data",
     "platform", "algorithm"]
  else if sector == "Healthcare" then
    ["drug", "treatment", "clinical", "FDA", "medical", "pharmaceutical",
     "biotech", "vaccine"]
  else if sector == "Financial Services" then
    ["banking", "lending", "credit", "financial", "payment", "fintech",
     "regulation", "interest"]
  else if sector == "Consumer Discretionary" then
    ["retail", "brand", "consumer", "sales", "marketing", "e-commerce",
     "shopping", "automotive"]
  else if sector == "Consumer Staples" then
    ["food", "beverage", "household", "grocery", "brand", "consumer goods"]
  else if sector == "Energy" then
    ["oil", "gas", "renewable", "solar", "wind", "battery", "electric",
     "carbon", "energy"]
  else if sector == "Industrials" then
    ["manufacturing", "industrial", "aerospace", "defense", "transportation",
     "logistics"]
  else []

/-- `getCompetitors(ticker)`: the competitor name table. -/
def getCompetitors (tk : String) : List String :=
  if tk == "AAPL" then ["samsung", "google", "microsoft", "amazon"]
  else if tk == "MSFT" then ["apple", "google", "amazon", "oracle"]
  else if tk == "GOOGL" then ["apple", "microsoft", "amazon", "meta"]
  else if tk == "AMZN" then ["microsoft", "google", "walmart", "alibaba"]
  else if tk == "TSLA" then ["ford", "gm", "volkswagen", "toyota"]
  else if tk == "META" then ["google", "apple", "twitter", "snapchat"]
  else if tk == "NVDA" then ["amd", "intel", "qualcomm", "broadcom"]
  else []

/-- The static base-price table of `generateAdvancedPriceTarget`. -/
def basePrices : List (String × ℚ) :=
  [ ("AAPL", 175), ("MSFT", 350), ("GOOGL", 140), ("AMZN", 145), ("TSLA", 240),
    ("META", 320), ("NVDA", 450), ("JPM", 150), ("JNJ", 160), ("V", 250),
    ("PG", 155), ("UNH", 520), ("HD", 330), ("MA", 380), ("BAC", 32) ]

/-- `basePrices[ticker] || 100`. -/
def basePriceOf (tk : String) : ℚ :=
  ((basePrices.find? (fun e => e.1 == tk)).map Prod.snd).getD 100

/-- `getSectorVolatility(sector)`. -/
def getSectorVolatility (sector : String) : ℚ :=
  if sector == "Technology" then 1.2
  else if sector == "Healthcare" then 0.9
  else if sector == "Financial Services" then 1.1
  else if sector == "Consumer Discretionary" then 1.3
  else if sector == "Consumer Staples" then 0.7
  else if sector == "Energy" then 1.5
  else if sector == "Industrials" then 1.0
  else if sector == "Materials" then 1.4
  else if sector == "Real Estate" then 0.8
  else if sector == "Utilities" then 0.6
  else 1.0

/-! ## Stable descending sort

`Array.prototype.sort` with the comparator `(a, b) => key(b) - key(a)` is a
stable sort into descending key order.  A stable sort is unique, so we model
it by stable insertion sort: an element is inserted before the first element
with a strictly smaller key. -/

/-- Insert `x` into a list sorted by descending `key`, before the first
element whose key is strictly smaller (so equal keys keep original order). -/
def insertDesc (key : α → ℚ) (x : α) : List α → List α
  | [] => [x]
  | y :: ys => if key y ≤ key x then x :: y :: ys else y :: insertDesc key x ys

/-- Stable sort by descending `key`. -/
def sortDesc (key : α → ℚ) : List α → List α
  | [] => []
  | x :: xs => insertDesc key x (sortDesc key xs)

theorem mem_insertDesc {key : α → ℚ} {x a : α} :
    ∀ {l : List α}, a ∈ insertDesc key x l ↔ a = x ∨ a ∈ l := by
  intro l
  induction l with
  | nil => simp [insertDesc]
  | cons y ys ih =>
      by_cases h : key y ≤ key x
      · simp [insertDesc, h]
      · simp only [insertDesc, if_neg h, List.mem_cons, ih]
        tauto

theorem mem_sortDesc {key : α → ℚ} {a : α} :
    ∀ {l : List α}, a ∈ sortDesc key l ↔ a ∈ l := by
  intro l
  induction l with
  | nil => simp [sortDesc]
  | cons x xs ih => simp [sortDesc, mem_insertDesc, ih]

theorem pairwise_insertDesc {key : α → ℚ} {x : α} {l : List α}
    (h : l.Pairwise (fun a b => key b ≤ key a)) :
    (insertDesc key x l).Pairwise (fun a b => key b ≤ key a) := by
  induction l with
  | nil => simp [insertDesc]
  | cons y ys ih =>
      rcases List.pairwise_cons.1 h with ⟨hy, hys⟩
      by_cases hxy : key y ≤ key x
      · rw [insertDesc, if_pos hxy]
        refine List.pairwise_cons.2 ⟨?_, h⟩
        intro b hb
        rcases List.mem_cons.1 hb with rfl | hb
        · exact hxy
        · exact le_trans (hy b hb) hxy
      · rw [insertDesc, if_neg hxy]
        refine List.pairwise_cons.2 ⟨?_, ih hys⟩
        intro b hb
        rcases mem_insertDesc.1 hb with rfl | hb
        · exact le_of_lt (lt_of_not_le hxy)
        · exact hy b hb

theorem pairwise_sortDesc (key : α → ℚ) :
    ∀ l : List α, (sortDesc key l).Pairwise (fun a b => key b ≤ key a) := by
  intro l
  induction l with
  | nil => simp [sortDesc]
  | cons x xs ih => exact pairwise_insertDesc ih

theorem insertDesc_eq_cons {key : α → ℚ} {x : α} {l : List α}
    (h : ∀ y ∈ l, key y ≤ key x) : insertDesc key x l = x :: l := by
  cases l with
  | nil => rfl
  | cons y ys => simp [insertDesc, h y (List.mem_cons_self y ys)]

theorem filter_insertDesc (key : α → ℚ) (p : α → Bool) (x : α) :
    ∀ l : List α, l.Pairwise (fun a b => key b ≤ key a) →
      (insertDesc key x l).filter p =
        if p x then insertDesc key x (l.filter p) else l.filter p := by
  intro l
  induction l with
  | nil =>
      intro _
      by_cases hx : p x <;> simp [insertDesc, List.filter, hx]
  | cons y ys ih =>
      intro h
      rcases List.pairwise_cons.1 h with ⟨hy, hys⟩
      by_cases hxy : key y ≤ key x
      · by_cases hpy : p y
        · by_cases hpx : p x <;>
            simp [insertDesc, hxy, List.filter, hpx, hpy]
        · have hfil : ∀ z ∈ ys.filter p, key z ≤ key x := by
            intro z hz
            exact le_trans (hy z (List.mem_of_mem_filter hz)) hxy
          by_cases hpx : p x
          · simp only [insertDesc, if_pos hxy, List.filter, hpx, hpy,
              cond_true, cond_false]
            rw [insertDesc_eq_cons hfil]
            simp
          · simp [insertDesc, hxy, List.filter, hpx, hpy]
      · by_cases hpy : p y
        · by_cases hpx : p x
          · have hnot : ¬ key y ≤ key x := hxy
            simp only [insertDesc, if_neg hxy, List.filter, hpy, cond_true,
              hpx, ih hys]
            simp [insertDesc, hnot, hpx]
          · simp only [insertDesc, if_neg hxy, List.filter, hpy, cond_true,
              hpx, ih hys]
            simp [hpx]
        · simp only [insertDesc, if_neg hxy, List.filter, hpy, cond_false,
            ih hys]

theorem filter_sortDesc (key : α → ℚ) (p : α → Bool) :
    ∀ l : List α, (sortDesc key l).filter p = sortDesc key (l.filter p) := by
  intro l
  induction l with
  | nil => rfl
  | cons x xs ih =>
      rw [sortDesc, filter_insertDesc key p x _ (pairwise_sortDesc key xs), ih]
      by_cases hx : p x
      · simp [List.filter, hx, sortDesc]
      · simp [List.filter, hx]

/-! ## Sentiment analyzer (`analyzeSentiment`) -/

/-- Result of `analyzeSentiment`. -/
structure SentimentR where
  score : ℚ
  label : String
  confidence : ℚ
deriving DecidableEq

/-- Total number of matched sentiment keywords across both polarities and
all intensity tiers (`totalMatches`). -/
def sentTotalMatches (text : List Char) : ℕ :=
  countKw text POS_STRONG + countKw text POS_MODERATE + countKw text POS_MILD +
    (countKw text NEG_STRONG + countKw text NEG_MODERATE + countKw text NEG_MILD)

/-- The signed weighted sum `sentimentScore`: positive tiers add their
match counts weighted 3/2/1, negative tiers subtract them. -/
def sentSum (text : List Char) : ℚ :=
  ((countKw text POS_STRONG : ℚ) * 3 + (countKw text POS_MODERATE : ℚ) * 2 +
      (countKw text POS_MILD : ℚ) * 1) -
    ((countKw text NEG_STRONG : ℚ) * 3 + (countKw text NEG_MODERATE : ℚ) * 2 +
      (countKw text NEG_MILD : ℚ) * 1)

/-- The normalized pre-rescale value `normalizedScore`:
`clamp(sentimentScore / (totalMatches * 2), -1, 1)` when there was at least
one match, `0` otherwise. -/
def rawSentiment (text : List Char) : ℚ :=
  if 0 < sentTotalMatches text then
    max (-1) (min 1 (sentSum text / ((sentTotalMatches text : ℚ) * 2)))
  else 0

/-- A label from the pre-rescale signed value. -/
def sentimentLabel (raw : ℚ) : String :=
  if raw > 0.3 then "Very Positive"
  else if raw > 0.1 then "Positive"
  else if raw > -0.1 then "Neutral"
  else if raw > -0.3 then "Negative"
  else "Very Negative"

/-- `analyzeSentiment(text)`. -/
def analyzeSentiment (text : List Char) : SentimentR :=
  { score := (rawSentiment text + 1) / 2,
    label := sentimentLabel (rawSentiment text),
    confidence := min 0.95 (max 0.3 ((sentTotalMatches text : ℚ) * 0.1 + 0.5)) }

/-! ## Entity and sector relevance extractor -/

/-- The direct-ticker-mention component of the relevance score in
`identifyConnectedStocks`: `text.includes(ticker.toLowerCase()) ||
text.includes('$' + ticker.toLowerCase())` gives +10. -/
def directTickerBonus (tk : String) (text : List Char) : ℚ :=
  if containsSub (lowerStr tk).data text ||
      containsSub ('$' :: (lowerStr tk).data) text then 10 else 0

/-- JavaScript `s.split(' ')`: split at every single space (consecutive
spaces yield empty pieces); `acc` holds the reversed current piece. -/
def splitSp (acc : List Char) : List Char → List (List Char)
  | [] => [acc.reverse]
  | c :: cs => if c == ' ' then acc.reverse :: splitSp [] cs
               else splitSp (c :: acc) cs

/-- Words of the display name longer than 3 characters
(`company.name.toLowerCase().split(' ').filter(w => w.length > 3)`). -/
def nameWords (name : String) : List (List Char) :=
  (splitSp [] (lowerStr name).data).filter (fun w => w.length > 3)

/-- The accumulated relevance score of one company in
`identifyConnectedStocks`. -/
def relevanceScore (tk : String) (co : Company) (text : List Char) : ℚ :=
  directTickerBonus tk text +
    ((nameWords co.name).filter (fun w => containsSub w text)).length * 5 +
    (countKw text (sectorKeywordsOf co.sector) : ℚ) * 2 +
    (((getIndustryKeywords co.sector).filter
        (fun k => containsSub (lowerStr k).data (text.map lowChar))).length : ℚ) * 1.5 +
    (((getCompetitors tk).filter
        (fun c => containsSub (lowerStr c).data (text.map lowChar))).length : ℚ) * 1

/-- All registry companies with their relevance scores, in registry order. -/
def allScored (text : List Char) : List (String × ℚ) :=
  COMPANY_DATABASE.map (fun e => (e.1, relevanceScore e.1 e.2 text))

/-- The broad-market fallback keywords. -/
def broadMarketKeywords : List String :=
  ["market", "economy", "fed", "inflation", "gdp", "recession", "bull", "bear"]

/-- Does the text contain a broad-market keyword? -/
def hasBroadMarket (text : List Char) : Bool :=
  broadMarketKeywords.any (fun k => containsSub k.data text)

/-- `identifyConnectedStocks(text)`: positive scores are collected, sorted
descending (stably), thresholded at 2 and truncated to 6; with a
broad-market fallback of four large caps, else the empty list. -/
def identifyConnectedStocks (text : List Char) : List String :=
  let sorted := (sortDesc Prod.snd ((allScored text).filter (fun p => 0 < p.2))).filter
      (fun p => 2 ≤ p.2)
  if 0 < sorted.length then ((sorted.take 6).map Prod.fst)
  else if hasBroadMarket text then ["AAPL", "MSFT", "GOOGL", "AMZN"]
  else []

/-- `identifyAffectedSectors(text)`: sectors any of whose keywords occur,
with a three-sector default, capped at 5. -/
def identifyAffectedSectors (text : List Char) : List String :=
  let affected := (SECTOR_KEYWORDS.filter
      (fun e => e.2.any (fun k => containsSub k.data text))).map Prod.fst
  (if affected.isEmpty then ["Technology", "Financial Services", "Healthcare"]
   else affected).take 5

/-! ## Impact prediction model (`buildAdvancedPredictionModel` and helpers) -/

/-- `countCompanyMentions(text, ticker, companyName)`: global-regex match
counts of the lowercased ticker, of `$ticker`, and of each name word longer
than 3 characters (name words may contain `.`, which is the regex
wildcard). -/
def countCompanyMentions (text : List Char) (tk : String) (name : String) : ℕ :=
  countR (toPat (lowerStr tk).data) text +
    countR (RTok.lit '$' :: toPat (lowerStr tk).data) text +
    ((nameWords name).map (fun w => countR (toPat w) text)).sum

/-- `calculateSectorRelevance(text, sector)`: capped scaled keyword-match
count `min(1, matches * 0.2)`. -/
def calculateSectorRelevance (text : List Char) (sector : String) : ℚ :=
  min 1 ((countKw text (sectorKeywordsOf sector) : ℚ) * 0.2)

/-- `calculateNewsRelevance(ticker, company, text)`: starts at 1.0; +0.3
if the word-bounded ticker regex matches; plus `min(0.4, matches * 0.08)`
industry-keyword boost; +0.15 if a competitor occurs; capped at 2.0. -/
def calculateNewsRelevance (tk : String) (co : Company) (text : List Char) : ℚ :=
  let relevance : ℚ := 1.0
  let relevance := if 0 < countTok (lowerStr tk).data none (text.map lowChar)
    then relevance + 0.3 else relevance
  let relevance := relevance +
    min 0.4 ((((getIndustryKeywords co.sector).filter
        (fun k => containsSub (lowerStr k).data (text.map lowChar))).length : ℚ) * 0.08)
  let relevance := if 0 < ((getCompetitors tk).filter
        (fun c => containsSub (lowerStr c).data (text.map lowChar))).length
    then relevance + 0.15 else relevance
  min 2.0 relevance

/-- `calculateImpactScore` of the prediction model: sentiment base, mention
boost clamped at 1, sector blend at weight 0.4, market-cap volatility and
news-relevance scalings around 0.5, and a final clamp to the unit
interval. -/
def calculateImpactScore (tk : String) (co : Company) (text : List Char)
    (sent : SentimentR) : ℚ :=
  let impactScore := sent.score
  let mentionBoost := min 0.3 ((countCompanyMentions text tk co.name : ℚ) * 0.08)
  let impactScore := min 1 (impactScore + mentionBoost)
  let sectorWeight : ℚ := 0.4
  let impactScore := impactScore * (1 - sectorWeight) +
    calculateSectorRelevance text co.sector * sectorWeight
  let volatilityFactor : ℚ := if co.marketCap > 1000000000000 then 0.85 else 1.15
  let impactScore := 0.5 + (impactScore - 0.5) * volatilityFactor
  let impactScore := 0.5 + (impactScore - 0.5) * calculateNewsRelevance tk co text
  max 0 (min 1 impactScore)

/-- `calculateConfidence` of the prediction model; `u` is the value of its
`Math.random()` draw. -/
def calculateConfidence (tk : String) (co : Company) (text : List Char)
    (sent : SentimentR) (u : ℚ) : ℚ :=
  let sentimentStrength := |sent.score - 0.5| * 2
  let confidence := 0.5 + sentimentStrength * 0.3
  let confidence := confidence +
    min 0.2 ((countCompanyMentions text tk co.name : ℚ) * 0.04)
  let confidence := confidence + calculateSectorRelevance text co.sector * 0.15
  let stabilityFactor : ℚ := if co.marketCap > 500000000000 then 1.1 else 0.95
  let confidence := confidence * stabilityFactor
  let historicalAccuracy := 0.8 + u * 0.15
  let confidence := confidence * historicalAccuracy
  max 0.3 (min 0.95 confidence)

/-- `getImpactLevel(score)`. -/
def getImpactLevel (score : ℚ) : String :=
  if score > 0.8 then "Very Positive"
  else if score > 0.6 then "Positive"
  else if score > 0.4 then "Neutral"
  else if score > 0.2 then "Negative"
  else "Very Negative"

/-- Price-target record. -/
structure PriceTarget where
  current : ℚ
  predicted : ℚ
  change : ℚ
  changePercent : ℚ
deriving DecidableEq

/-- `generateAdvancedPriceTarget(ticker, impactScore, predictionModel)`;
`newsRel` is the model's news-relevance factor and `conf` the value of the
fresh `calculateConfidence()` call the function makes (which draws its own
jitter). -/
def generateAdvancedPriceTarget (tk : String) (impactScore : ℚ)
    (newsRel : ℚ) (conf : ℚ) : PriceTarget :=
  let basePrice := basePriceOf tk
  let changePercent := (impactScore - 0.5) * 25
  let changePercent := match lookupCompany tk with
    | some co => changePercent * (if co.marketCap > 1000000000000 then 0.7 else 1.3)
    | none => changePercent
  let changePercent := changePercent * newsRel
  let confidenceMultiplier := 0.5 + conf * 0.5
  let changePercent := changePercent * confidenceMultiplier
  let sector := ((lookupCompany tk).map Company.sector).getD "Technology"
  let changePercent := changePercent * getSectorVolatility sector
  let predictedPrice := basePrice * (1 + changePercent / 100)
  { current := basePrice,
    predicted := round2 predictedPrice,
    change := round2 (predictedPrice - basePrice),
    changePercent := round2 changePercent }

/-- Immediate-timeframe keywords. -/
def immediateKeywords : List String :=
  ["immediate", "today", "breaking", "urgent", "now", "just announced"]

/-- Short-term-timeframe keywords. -/
def shortTermKeywords : List String :=
  ["quarter", "earnings", "this week", "next week", "monthly"]

/-- Long-term-timeframe keywords. -/
def longTermKeywords : List String :=
  ["year", "years", "long-term", "strategic", "future", "roadmap", "vision"]

/-- `determineDynamicTimeframe(text, impactScore, confidence)`. -/
def determineDynamicTimeframe (text : List Char) (impactScore confidence : ℚ) :
    String :=
  let t := text.map lowChar
  if immediateKeywords.any (fun k => containsSub k.data t) then "Immediate"
  else if shortTermKeywords.any (fun k => containsSub k.data t) ∨
      (|impactScore - 0.5| > 0.25 ∧ confidence > 0.8) then "Short-term"
  else if longTermKeywords.any (fun k => containsSub k.data t) ∨
      (containsSub "regulation".data t || containsSub "policy".data t ||
        containsSub "transformation".data t) = true then "Long-term"
  else if confidence > 0.7 then "Short-term"
  else "Medium-term"

/-! ## Narrative synthesizer

The reasoning / insight / risk / opportunity sentences are fixed templates;
each is modelled by an inductive constructor carrying the data interpolated
into the template, with exactly the source's branching and list shape. -/

/-- One reasoning sentence of `generateAdvancedStockReasoning`. -/
inductive ReasonItem
  | sectorStrong (sector : String) (kwCount : ℕ)
  | sectorIndirect (sector : String)
  | strongPositive (pct : ℤ)
  | moderatePositive
  | negativePressure (pct : ℤ)
  | cautious
  | highMentions (n : ℕ)
  | moderateMentions
  | largeCapStability
  | midLargeCap
  | smallerCap
  | businessDrivers (factors : List String)
  | highNewsRelevance
deriving DecidableEq

/-- `generateAdvancedStockReasoning(ticker, company, text, sentiment, model)`,
truncated to 5 entries. -/
def generateAdvancedStockReasoning (tk : String) (co : Company)
    (text : List Char) (sent : SentimentR) : List ReasonItem :=
  let matchedCount := ((getIndustryKeywords co.sector).filter
      (fun k => containsSub (lowerStr k).data (text.map lowChar))).length
  let sectorPart := if 0 < matchedCount then
      [ReasonItem.sectorStrong co.sector matchedCount]
    else [ReasonItem.sectorIndirect co.sector]
  let sentimentPart :=
    if sent.score > 0.7 then [ReasonItem.strongPositive (jsRound (sent.score * 100))]
    else if sent.score > 0.6 then [ReasonItem.moderatePositive]
    else if sent.score < 0.3 then [ReasonItem.negativePressure (jsRound (sent.score * 100))]
    else if sent.score < 0.4 then [ReasonItem.cautious]
    else []
  let mentions := countCompanyMentions text tk co.name
  let mentionPart :=
    if mentions > 2 then [ReasonItem.highMentions mentions]
    else if mentions > 0 then [ReasonItem.moderateMentions]
    else []
  let capPart :=
    if co.marketCap > 1000000000000 then [ReasonItem.largeCapStability]
    else if co.marketCap > 100000000000 then [ReasonItem.midLargeCap]
    else [ReasonItem.smallerCap]
  let businessFactors :=
    (if hasKw text "earnings" || hasKw text "revenue" || hasKw text "profit"
     then ["financial performance"] else []) ++
    (if hasKw text "regulation" || hasKw text "policy" || hasKw text "compliance"
     then ["regulatory environment"] else []) ++
    (if hasKw text "competition" || hasKw text "market share"
     then ["competitive dynamics"] else []) ++
    (if hasKw text "innovation" || hasKw text "product" || hasKw text "launch"
     then ["product development"] else [])
  let factorPart := if 0 < businessFactors.length
    then [ReasonItem.businessDrivers businessFactors] else []
  let newsPart := if calculateNewsRelevance tk co text > 1.3
    then [ReasonItem.highNewsRelevance] else []
  (sectorPart ++ sentimentPart ++ mentionPart ++ capPart ++ factorPart ++
    newsPart).take 5

/-- The sentence returned by `generateSectorReasoning`. -/
inductive SectorReason
  | direct (matched : List String) (label : String) (benefits : Bool)
  | indirect (label : String)
deriving DecidableEq

/-- `generateSectorReasoning(sector, text, sentiment)`. -/
def generateSectorReasoning (sector : String) (text : List Char)
    (sent : SentimentR) : SectorReason :=
  let matched := (sectorKeywordsOf sector).filter (fun k => hasKw text k)
  if 0 < matched.length then
    SectorReason.direct (matched.take 3) sent.label (decide (sent.score > 0.5))
  else SectorReason.indirect sent.label

/-- A sector-impact record (`MarketSector`). -/
structure MarketSector where
  name : String
  impactScore : ℚ
  affectedStocks : List String
  reasoning : SectorReason
deriving DecidableEq

/-- `generateSectorImpacts(sectors, text, sentiment)`. -/
def generateSectorImpacts (sectors : List String) (text : List Char)
    (sent : SentimentR) : List MarketSector :=
  sectors.map (fun sector =>
    { name := sector,
      impactScore := (sent.score + calculateSectorRelevance text sector) / 2,
      affectedStocks := ((COMPANY_DATABASE.filter
          (fun e => e.2.sector == sector)).map Prod.fst).take 4,
      reasoning := generateSectorReasoning sector text sent })

/-- A stock-impact record (`StockImpact`). -/
structure StockImpact where
  ticker : String
  companyName : String
  impactScore : ℚ
  impactLevel : String
  confidence : ℚ
  timeframe : String
  reasoning : List ReasonItem
  priceTarget : Option PriceTarget
deriving DecidableEq

/-- One iteration of the loop of `generateStockImpacts` for a found
company; `i` is the number of companies processed before it, fixing which
`Math.random()` draws of the stream `rand` it consumes (two per company:
one in the `calculateConfidence()` call for the output field, one in the
`calculateConfidence()` call inside `generateAdvancedPriceTarget`). -/
def mkStockImpact (rand : ℕ → ℚ) (text : List Char) (sent : SentimentR)
    (tk : String) (co : Company) (i : ℕ) : StockImpact :=
  let impactScore := calculateImpactScore tk co text sent
  let confidence := calculateConfidence tk co text sent (rand (2 * i))
  { ticker := tk,
    companyName := co.name,
    impactScore := impactScore,
    impactLevel := getImpactLevel impactScore,
    confidence := confidence,
    timeframe := determineDynamicTimeframe text impactScore confidence,
    reasoning := generateAdvancedStockReasoning tk co text sent,
    priceTarget := some (generateAdvancedPriceTarget tk impactScore
      (calculateNewsRelevance tk co text)
      (calculateConfidence tk co text sent (rand (2 * i + 1)))) }

/-- The loop of `generateStockImpacts`: tickers without a registry entry
are skipped (`if (!company) continue`) and consume no random draws. -/
def genImpactsAux (rand : ℕ → ℚ) (text : List Char) (sent : SentimentR) :
    List String → ℕ → List StockImpact
  | [], _ => []
  | tk :: rest, i =>
      match lookupCompany tk with
      | none => genImpactsAux rand text sent rest i
      | some co => mkStockImpact rand text sent tk co i ::
          genImpactsAux rand text sent rest (i + 1)

/-- `generateStockImpacts(stocks, text, sentiment)`: the loop followed by
the stable sort on descending distance of the impact score from 0.5. -/
def generateStockImpacts (rand : ℕ → ℚ) (stocks : List String)
    (text : List Char) (sent : SentimentR) : List StockImpact :=
  sortDesc (fun si => |si.impactScore - 0.5|) (genImpactsAux rand text sent stocks 0)

/-- One insight sentence of `generateKeyInsights`. -/
inductive InsightItem
  | topPositive (tickers : List String)
  | topNegative (tickers : List String)
  | topSector (name : String)
  | immediateReaction (count : ℕ)
  | marketBreadth (positiveCount totalCount : ℕ)
deriving DecidableEq

/-- `generateKeyInsights(headline, text, stockImpacts, sectorImpacts)`.
In the source this function receives the sector list and sorts it in
place; the orchestrator passes the already-sorted list here (see
`analyzeArticleImpact`). -/
def generateKeyInsights (stockImpacts : List StockImpact)
    (sortedSectors : List MarketSector) : List InsightItem :=
  let topPositive := (stockImpacts.filter (fun s => s.impactScore > 0.6)).take 2
  let topNegative := (stockImpacts.filter (fun s => s.impactScore < 0.4)).take 2
  let part1 := if 0 < topPositive.length
    then [InsightItem.topPositive (topPositive.map StockImpact.ticker)] else []
  let part2 := if 0 < topNegative.length
    then [InsightItem.topNegative (topNegative.map StockImpact.ticker)] else []
  let part3 := match sortedSectors.head? with
    | some s => [InsightItem.topSector s.name]
    | none => []
  let immediateImpacts :=
    (stockImpacts.filter (fun s => s.timeframe == "Immediate")).length
  let part4 := if 0 < immediateImpacts
    then [InsightItem.immediateReaction immediateImpacts] else []
  let positiveCount := (stockImpacts.filter (fun s => s.impactScore > 0.5)).length
  let part5 := [InsightItem.marketBreadth positiveCount stockImpacts.length]
  (part1 ++ part2 ++ part3 ++ part4 ++ part5).take 5

/-- One risk sentence of `identifyRiskFactors`. -/
inductive RiskItem
  | regulatoryUncertainty
  | macroFactors
  | moderateConfidence
  | geopoliticalTensions
  | genericRisk
deriving DecidableEq

/-- `identifyRiskFactors(text, sentiment)`, truncated to 4 entries. -/
def identifyRiskFactors (text : List Char) (sent : SentimentR) : List RiskItem :=
  ((if hasKw text "regulation" || hasKw text "policy"
    then [RiskItem.regulatoryUncertainty] else []) ++
   (if hasKw text "inflation" || hasKw text "interest rate"
    then [RiskItem.macroFactors] else []) ++
   (if sent.confidence < 0.7 then [RiskItem.moderateConfidence] else []) ++
   (if hasKw text "geopolitical" || hasKw text "trade"
    then [RiskItem.geopoliticalTensions] else []) ++
   [RiskItem.genericRisk]).take 4

/-- One opportunity sentence of `identifyOpportunities`. -/
inductive OppItem
  | momentumGains
  | techGrowth
  | financialPerformance
  | corporateActivity
  | genericOpportunity
deriving DecidableEq

/-- `identifyOpportunities(text, sentiment)`, truncated to 4 entries. -/
def identifyOpportunities (text : List Char) (sent : SentimentR) : List OppItem :=
  ((if sent.score > 0.6 then [OppItem.momentumGains] else []) ++
   (if hasKw text "innovation" || hasKw text "technology"
    then [OppItem.techGrowth] else []) ++
   (if hasKw text "earnings" || hasKw text "revenue"
    then [OppItem.financialPerformance] else []) ++
   (if hasKw text "merger" || hasKw text "acquisition"
    then [OppItem.corporateActivity] else []) ++
   [OppItem.genericOpportunity]).take 4

/-- The fixed three-bucket timeline of `generateTimeline`. -/
structure Timeline where
  immediate : List String
  shortTerm : List String
  longTerm : List String
deriving DecidableEq

/-- `generateTimeline`: constant descriptive strings, independent of the
input. -/
def generateTimeline : Timeline :=
  { immediate :=
      ["Initial market reaction and price discovery",
       "Trading volume spike in affected securities",
       "Analyst commentary and rating updates"],
    shortTerm :=
      ["Earnings guidance adjustments from companies",
       "Sector rotation based on new information",
       "Options market activity reflecting sentiment shifts"],
    longTerm :=
      ["Fundamental business impact assessment",
       "Strategic positioning changes by companies",
       "Long-term valuation multiple adjustments"] }

/-- The top-level analysis record (`AIAnalysisResult`). -/
structure AIAnalysisResult where
  stockImpacts : List StockImpact
  sectorImpacts : List MarketSector
  overallMarketSentiment : SentimentR
  keyInsights : List InsightItem
  riskFactors : List RiskItem
  opportunities : List OppItem
  timeline : Timeline
deriving DecidableEq

/-- `analyzeArticleImpact(headline, fullText)`, the orchestrator; `rand` is
the stream of `Math.random()` draws.  In the source, `generateKeyInsights`
sorts the sector array in place before the result object captures it, so
the returned `sectorImpacts` are the sorted ones. -/
def analyzeArticleImpact (rand : ℕ → ℚ) (headline fullText : String) :
    AIAnalysisResult :=
  let combinedText := (headline ++ " " ++ fullText).data.map lowChar
  let relevantStocks := identifyConnectedStocks combinedText
  let affectedSectors := identifyAffectedSectors combinedText
  let sentimentAnalysis := analyzeSentiment combinedText
  let stockImpacts := generateStockImpacts rand relevantStocks combinedText
    sentimentAnalysis
  let sectorImpacts := generateSectorImpacts affectedSectors combinedText
    sentimentAnalysis
  let sortedSectors := sortDesc (fun se => |se.impactScore - 0.5|) sectorImpacts
  { stockImpacts := stockImpacts,
    sectorImpacts := sortedSectors,
    overallMarketSentiment := sentimentAnalysis,
    keyInsights := generateKeyInsights stockImpacts sortedSectors,
    riskFactors := identifyRiskFactors combinedText sentimentAnalysis,
    opportunities := identifyOpportunities combinedText sentimentAnalysis,
    timeline := generateTimeline }

/-! ## Claim-side definitions

These follow the wording of the specification claims (not the source) and
are compared against the source-derived definitions above. -/

/-- The impact-score derivation exactly as the specification claims it,
with no clamping between the mention boost and the final clamp. -/
def claimImpactScore (tk : String) (co : Company) (text : List Char)
    (sent : SentimentR) : ℚ :=
  let withBoost := sent.score +
    min 0.3 ((countCompanyMentions text tk co.name : ℚ) * 0.08)
  let blended := withBoost * 0.6 + calculateSectorRelevance text co.sector * 0.4
  let volatilityFactor : ℚ := if co.marketCap > 1000000000000 then 0.85 else 1.15
  let afterVol := 0.5 + (blended - 0.5) * volatilityFactor
  let afterNews := 0.5 + (afterVol - 0.5) * calculateNewsRelevance tk co text
  max 0 (min 1 afterNews)

/-- The impact-score derivation as amended: identical to the claim except
that the mention-boosted sentiment is clamped at 1 before the sector
blend. -/
def amendedImpactScore (tk : String) (co : Company) (text : List Char)
    (sent : SentimentR) : ℚ :=
  let withBoost := min 1 (sent.score +
    min 0.3 ((countCompanyMentions text tk co.name : ℚ) * 0.08))
  let blended := withBoost * 0.6 + calculateSectorRelevance text co.sector * 0.4
  let volatilityFactor : ℚ := if co.marketCap > 1000000000000 then 0.85 else 1.15
  let afterVol := 0.5 + (blended - 0.5) * volatilityFactor
  let afterNews := 0.5 + (afterVol - 0.5) * calculateNewsRelevance tk co text
  max 0 (min 1 afterNews)

/-- The direct-mention condition exactly as the specification claims it:
the ticker occurs in the lowercased text as a bare (word-bounded) token or
prefixed with a dollar sign. -/
def claimTickerToken (tk : String) (text : List Char) : Bool :=
  (countTok (lowerStr tk).data none text != 0) ||
    containsSub ('$' :: (lowerStr tk).data) text

/-- The timeframe classification exactly as the specification claims it:
rules tried in priority order, first match wins. -/
def specTimeframe (text : List Char) (impactScore confidence : ℚ) : String :=
  let t := text.map lowChar
  if immediateKeywords.any (fun k => containsSub k.data t) then "Immediate"
  else if shortTermKeywords.any (fun k => containsSub k.data t) ∨
      (|impactScore - 0.5| > 0.25 ∧ confidence > 0.8) then "Short-term"
  else if longTermKeywords.any (fun k => containsSub k.data t) ∨
      (containsSub "regulation".data t || containsSub "policy".data t ||
        containsSub "transformation".data t) = true then "Long-term"
  else if confidence > 0.7 then "Short-term"
  else "Medium-term"

/-! ## Helper lemmas -/

theorem containsSub_of_fitsAt {p : List Char} :
    ∀ {t : List Char}, fitsAt p t = true → containsSub p t = true := by
  intro t h
  cases t with
  | nil =>
      cases p with
      | nil => rfl
      | cons a as => exact absurd h (by simp [fitsAt])
  | cons c cs => simp [containsSub, h]

theorem containsSub_of_cons {c : Char} {p : List Char} :
    ∀ {t : List Char}, containsSub (c :: p) t = true → containsSub p t = true := by
  intro t
  induction t with
  | nil => intro h; exact absurd h (by simp [containsSub])
  | cons d ds ih =>
      intro h
      rcases Bool.or_eq_true_iff.1 h with hfit | hrec
      · rcases Bool.and_eq_true_iff.1 hfit with ⟨_, hp⟩
        have : containsSub p ds = true := containsSub_of_fitsAt hp
        simp [containsSub, this]
      · have : containsSub p ds = true := ih hrec
        simp [containsSub, this]

theorem lookupCompany_mem {tk : String} {co : Company}
    (h : lookupCompany tk = some co) : tk ∈ COMPANY_DATABASE.map Prod.fst := by
  unfold lookupCompany at h
  cases hfind : COMPANY_DATABASE.find? (fun e => e.1 == tk) with
  | none => rw [hfind] at h; exact absurd h (by simp)
  | some e =>
      have hmem : e ∈ COMPANY_DATABASE := List.mem_of_find?_eq_some hfind
      have hpred := List.find?_some hfind
      have : e.1 = tk := by simpa using hpred
      exact this ▸ List.mem_map_of_mem Prod.fst hmem

theorem clamp01_bounds (x : ℚ) : 0 ≤ max 0 (min 1 x) ∧ max 0 (min 1 x) ≤ 1 :=
  ⟨le_max_left 0 _, max_le (by norm_num) (min_le_left 1 x)⟩

theorem clampConf_bounds (x : ℚ) :
    (0.3 : ℚ) ≤ max 0.3 (min 0.95 x) ∧ max 0.3 (min 0.95 x) ≤ 0.95 :=
  ⟨le_max_left _ _, max_le (by norm_num) (min_le_left _ x)⟩

theorem calculateImpactScore_bounds (tk : String) (co : Company)
    (text : List Char) (sent : SentimentR) :
    0 ≤ calculateImpactScore tk co text sent ∧
      calculateImpactScore tk co text sent ≤ 1 := by
  simp only [calculateImpactScore]
  exact clamp01_bounds _

theorem calculateConfidence_bounds (tk : String) (co : Company)
    (text : List Char) (sent : SentimentR) (u : ℚ) :
    (0.3 : ℚ) ≤ calculateConfidence tk co text sent u ∧
      calculateConfidence tk co text sent u ≤ 0.95 := by
  simp only [calculateConfidence]
  exact clampConf_bounds _

theorem rawSentiment_bounds (text : List Char) :
    -1 ≤ rawSentiment text ∧ rawSentiment text ≤ 1 := by
  unfold rawSentiment
  split
  · exact ⟨le_max_left _ _, max_le (by norm_num) (min_le_left _ _)⟩
  · norm_num

theorem sentiment_score_bounds (text : List Char) :
    0 ≤ (analyzeSentiment text).score ∧ (analyzeSentiment text).score ≤ 1 := by
  have h := rawSentiment_bounds text
  simp only [analyzeSentiment]
  constructor <;> [linarith [h.1]; linarith [h.2]]

theorem sentiment_conf_bounds (text : List Char) :
    (0.3 : ℚ) ≤ (analyzeSentiment text).confidence ∧
      (analyzeSentiment text).confidence ≤ 0.95 := by
  simp only [analyzeSentiment]
  exact ⟨le_min (by norm_num) (le_max_left _ _), min_le_left _ _⟩

theorem sectorRelevance_bounds (text : List Char) (sector : String) :
    0 ≤ calculateSectorRelevance text sector ∧
      calculateSectorRelevance text sector ≤ 1 := by
  unfold calculateSectorRelevance
  constructor
  · exact le_min (by norm_num) (by positivity)
  · exact min_le_left _ _

theorem genImpactsAux_prop {rand : ℕ → ℚ} {text : List Char} {sent : SentimentR}
    {P : StockImpact → Prop}
    (hP : ∀ tk co i, lookupCompany tk = some co →
      P (mkStockImpact rand text sent tk co i)) :
    ∀ (stocks : List String) (i : ℕ) (si : StockImpact),
      si ∈ genImpactsAux rand text sent stocks i → P si := by
  intro stocks
  induction stocks with
  | nil => intro i si h; exact absurd h (by simp [genImpactsAux])
  | cons tk rest ih =>
      intro i si h
      rw [genImpactsAux] at h
      cases hco : lookupCompany tk with
      | none => rw [hco] at h; exact ih i si h
      | some co =>
          rw [hco] at h
          rcases List.mem_cons.1 h with rfl | h'
          · exact hP tk co i hco
          · exact ih (i + 1) si h'

theorem generateStockImpacts_prop {rand : ℕ → ℚ} {text : List Char}
    {sent : SentimentR} {stocks : List String} {P : StockImpact → Prop}
    (hP : ∀ tk co i, lookupCompany tk = some co →
      P (mkStockImpact rand text sent tk co i)) :
    ∀ si ∈ generateStockImpacts rand stocks text sent, P si := by
  intro si hsi
  exact genImpactsAux_prop hP stocks 0 si (mem_sortDesc.1 hsi)

theorem countKw_pos_iff (text : List Char) (kws : List String) :
    0 < countKw text kws ↔ kws.any (fun k => hasKw text k) = true := by
  induction kws with
  | nil => simp [countKw]
  | cons k ks ih =>
      by_cases h : hasKw text k = true
      · simp [countKw, List.filter_cons, h]
      · simp only [countKw] at ih ⊢
        simp [List.filter_cons, h, ih]

theorem sentTotalMatches_pos_iff (text : List Char) :
    0 < sentTotalMatches text ↔
      ((POS_STRONG ++ POS_MODERATE ++ POS_MILD ++ NEG_STRONG ++ NEG_MODERATE ++
        NEG_MILD).any (fun k => hasKw text k)) = true := by
  simp only [sentTotalMatches, List.any_append, Bool.or_eq_true,
    ← countKw_pos_iff]
  omega

theorem filter_two_of_pos (l : List (String × ℚ)) :
    (l.filter (fun p => 0 < p.2)).filter (fun p => 2 ≤ p.2) =
      l.filter (fun p => 2 ≤ p.2) := by
  induction l with
  | nil => rfl
  | cons a l ih =>
      by_cases h2 : 2 ≤ a.2
      · have h0 : 0 < a.2 := lt_of_lt_of_le (by norm_num) h2
        simp [List.filter_cons, h0, h2, ih]
      · by_cases h0 : 0 < a.2 <;> simp [List.filter_cons, h0, h2, ih]

/-! ## Claim theorems -/

theorem relevanceScore_zero {tk : String} {co : Company} {text : List Char}
    (hb : (containsSub (lowerStr tk).data text ||
      containsSub ('$' :: (lowerStr tk).data) text) = false)
    (h1 : ((nameWords co.name).filter (fun w => containsSub w text)).length = 0)
    (h2 : countKw text (sectorKeywordsOf co.sector) = 0)
    (h3 : ((getIndustryKeywords co.sector).filter
        (fun k => containsSub (lowerStr k).data (text.map lowChar))).length = 0)
    (h4 : ((getCompetitors tk).filter
        (fun c => containsSub (lowerStr c).data (text.map lowChar))).length = 0) :
    relevanceScore tk co text = 0 := by
  unfold relevanceScore directTickerBonus
  rw [hb, h1, h2, h3, h4]
  norm_num

theorem identify_aapl_text :
    identifyConnectedStocks ("aapl aapl record").data = ["AAPL"] := by
  have hA : relevanceScore "AAPL" ⟨"Apple Inc.", "Technology", 3000000000000⟩
      ("aapl aapl record").data = 10 := by
    unfold relevanceScore directTickerBonus
    have hb : (containsSub (lowerStr "AAPL").data ("aapl aapl record").data ||
        containsSub ('$' :: (lowerStr "AAPL").data) ("aapl aapl record").data) = true := by
      decide
    rw [hb]
    have h1 : ((nameWords "Apple Inc.").filter
        (fun w => containsSub w ("aapl aapl record").data)).length = 0 := by decide
    have h2 : countKw ("aapl aapl record").data (sectorKeywordsOf "Technology") = 0 := by
      decide
    have h3 : ((getIndustryKeywords "Technology").filter
        (fun k => containsSub (lowerStr k).data
          (("aapl aapl record").data.map lowChar))).length = 0 := by decide
    have h4 : ((getCompetitors "AAPL").filter
        (fun c => containsSub (lowerStr c).data
          (("aapl aapl record").data.map lowChar))).length = 0 := by decide
    rw [h1, h2, h3, h4]
    norm_num
  have hM : relevanceScore "MSFT" ⟨"Microsoft Corporation", "Technology", 2800000000000⟩
      ("aapl aapl record").data = 0 :=
    relevanceScore_zero (by decide) (by decide) (by decide) (by decide) (by decide)
  have hG : relevanceScore "GOOGL" ⟨"Alphabet Inc.", "Technology", 1700000000000⟩
      ("aapl aapl record").data = 0 :=
    relevanceScore_zero (by decide) (by decide) (by decide) (by decide) (by decide)
  have hAm : relevanceScore "AMZN"
      ⟨"Amazon.com Inc.", "Consumer Discretionary", 1500000000000⟩
      ("aapl aapl record").data = 0 :=
    relevanceScore_zero (by decide) (by decide) (by decide) (by decide) (by decide)
  have hT : relevanceScore "TSLA" ⟨"Tesla Inc.", "Consumer Discretionary", 800000000000⟩
      ("aapl aapl record").data = 0 :=
    relevanceScore_zero (by decide) (by decide) (by decide) (by decide) (by decide)
  have hMe : relevanceScore "META" ⟨"Meta Platforms Inc.", "Technology", 750000000000⟩
      ("aapl aapl record").data = 0 :=
    relevanceScore_zero (by decide) (by decide) (by decide) (by decide) (by decide)
  have hN : relevanceScore "NVDA" ⟨"NVIDIA Corporation", "Technology", 1800000000000⟩
      ("aapl aapl record").data = 0 :=
    relevanceScore_zero (by decide) (by decide) (by decide) (by decide) (by decide)
  have hJ : relevanceScore "JPM"
      ⟨"JPMorgan Chase & Co.", "Financial Services", 450000000000⟩
      ("aapl aapl record").data = 0 :=
    relevanceScore_zero (by decide) (by decide) (by decide) (by decide) (by decide)
  have hJn : relevanceScore "JNJ" ⟨"Johnson & Johnson", "Healthcare", 400000000000⟩
      ("aapl aapl record").data = 0 :=
    relevanceScore_zero (by decide) (by decide) (by decide) (by decide) (by decide)
  have hV : relevanceScore "V" ⟨"Visa Inc.", "Financial Services", 500000000000⟩
      ("aapl aapl record").data = 0 :=
    relevanceScore_zero (by decide) (by decide) (by decide) (by decide) (by decide)
  have hP : relevanceScore "PG" ⟨"Procter & Gamble Co.", "Consumer Staples", 350000000000⟩
      ("aapl aapl record").data = 0 :=
    relevanceScore_zero (by decide) (by decide) (by decide) (by decide) (by decide)
  have hU : relevanceScore "UNH" ⟨"UnitedHealth Group Inc.", "Healthcare", 480000000000⟩
      ("aapl aapl record").data = 0 :=
    relevanceScore_zero (by decide) (by decide) (by decide) (by decide) (by decide)
  have hH : relevanceScore "HD"
      ⟨"The Home Depot Inc.", "Consumer Discretionary", 320000000000⟩
      ("aapl aapl record").data = 0 :=
    relevanceScore_zero (by decide) (by decide) (by decide) (by decide) (by decide)
  have hMa : relevanceScore "MA" ⟨"Mastercard Inc.", "Financial Services", 380000000000⟩
      ("aapl aapl record").data = 0 :=
    relevanceScore_zero (by decide) (by decide) (by decide) (by decide) (by decide)
  have hB : relevanceScore "BAC"
      ⟨"Bank of America Corp.", "Financial Services", 280000000000⟩
      ("aapl aapl record").data = 0 :=
    relevanceScore_zero (by decide) (by decide) (by decide) (by decide) (by decide)
  unfold identifyConnectedStocks allScored COMPANY_DATABASE
  simp only [List.map_cons, List.map_nil, hA, hM, hG, hAm, hT, hMe, hN, hJ, hJn,
    hV, hP, hU, hH, hMa, hB]
  decide

theorem sentiment_aapl_text : analyzeSentiment ("aapl aapl record").data =
    ⟨1, "Very Positive", 3/5⟩ := by
  have htm : sentTotalMatches ("aapl aapl record").data = 1 := by decide
  have hsum : sentSum ("aapl aapl record").data = 3 := by
    unfold sentSum
    have c1 : countKw ("aapl aapl record").data POS_STRONG = 1 := by decide
    have c2 : countKw ("aapl aapl record").data POS_MODERATE = 0 := by decide
    have c3 : countKw ("aapl aapl record").data POS_MILD = 0 := by decide
    have c4 : countKw ("aapl aapl record").data NEG_STRONG = 0 := by decide
    have c5 : countKw ("aapl aapl record").data NEG_MODERATE = 0 := by decide
    have c6 : countKw ("aapl aapl record").data NEG_MILD = 0 := by decide
    rw [c1, c2, c3, c4, c5, c6]
    norm_num
  have hraw : rawSentiment ("aapl aapl record").data = 1 := by
    unfold rawSentiment
    rw [htm, hsum]
    norm_num
  unfold analyzeSentiment
  rw [hraw, htm]
  unfold sentimentLabel
  norm_num

/-- Claim C1, counterexample: for the text "aapl aapl record" the
extractor's only candidate is the registry ticker AAPL, yet the impact
score computed by the prediction model (0.6105) differs from the value of
the claim's derivation without an intermediate clamp (0.71658): the code
clamps `impactScore + mentionBoost` at 1 before the sector blend. -/
theorem impactScore_claim_counterexample :
    identifyConnectedStocks ("aapl aapl record").data = ["AAPL"] ∧
    lookupCompany "AAPL" = some ⟨"Apple Inc.", "Technology", 3000000000000⟩ ∧
    claimImpactScore "AAPL" ⟨"Apple Inc.", "Technology", 3000000000000⟩
        ("aapl aapl record").data (analyzeSentiment ("aapl aapl record").data) ≠
      calculateImpactScore "AAPL" ⟨"Apple Inc.", "Technology", 3000000000000⟩
        ("aapl aapl record").data (analyzeSentiment ("aapl aapl record").data) := by
  refine ⟨identify_aapl_text, by decide, ?_⟩
  have hm : countCompanyMentions ("aapl aapl record").data "AAPL" "Apple Inc." = 2 := by
    decide
  have hsr : calculateSectorRelevance ("aapl aapl record").data "Technology" = 0 := by
    unfold calculateSectorRelevance
    have : countKw ("aapl aapl record").data (sectorKeywordsOf "Technology") = 0 := by
      decide
    rw [this]
    norm_num
  have hnr : calculateNewsRelevance "AAPL" ⟨"Apple Inc.", "Technology", 3000000000000⟩
      ("aapl aapl record").data = 13/10 := by
    unfold calculateNewsRelevance
    have ht : countTok (lowerStr "AAPL").data none
        (("aapl aapl record").data.map lowChar) = 2 := by decide
    have hi : ((getIndustryKeywords "Technology").filter
        (fun k => containsSub (lowerStr k).data
          (("aapl aapl record").data.map lowChar))).length = 0 := by decide
    have hc : ((getCompetitors "AAPL").filter
        (fun c => containsSub (lowerStr c).data
          (("aapl aapl record").data.map lowChar))).length = 0 := by decide
    rw [ht, hi, hc]
    norm_num
  rw [sentiment_aapl_text]
  unfold claimImpactScore calculateImpactScore
  rw [hm, hsr, hnr]
  norm_num

/-- Claim C1 as amended: for every registry company, the impact score
produced by the prediction model equals the claimed step composition with
one correction: after adding the mention-count boost the sum is clamped at
1 (`Math.min(1, score + mentionBoost)`) before the sector-relevance
blend; all later steps and the final clamp to the unit interval are as
claimed. -/
theorem impactScore_derivation_amended (text : List Char) (sent : SentimentR) :
    COMPANY_DATABASE.Forall (fun e =>
      calculateImpactScore e.1 e.2 text sent =
        amendedImpactScore e.1 e.2 text sent) := by
  have key : ∀ (tk : String) (co : Company),
      calculateImpactScore tk co text sent = amendedImpactScore tk co text sent := by
    intro tk co
    unfold calculateImpactScore amendedImpactScore
    norm_num
  exact List.forall_iff_forall_mem.2 (fun e _ => key e.1 e.2)

/-- Claim C2: for every text, the sentiment score is exactly 1/2 when no
sentiment-lexicon keyword of either polarity occurs, and otherwise equals
the clamped normalized weighted sum mapped to the unit interval; the
confidence is `clamp(totalMatches * 0.1 + 0.5, 0.3, 0.95)`; and the label
is chosen from the raw pre-rescale signed value by the thresholds 0.3,
0.1, -0.1, -0.3. -/
theorem analyzeSentiment_spec (text : List Char) :
    ((analyzeSentiment text).score =
      if ((POS_STRONG ++ POS_MODERATE ++ POS_MILD ++ NEG_STRONG ++ NEG_MODERATE ++
          NEG_MILD).any (fun k => hasKw text k)) = true then
        (max (-1) (min 1 (sentSum text / ((sentTotalMatches text : ℚ) * 2))) + 1) / 2
      else 1 / 2) ∧
    (analyzeSentiment text).confidence =
      min 0.95 (max 0.3 ((sentTotalMatches text : ℚ) * 0.1 + 0.5)) ∧
    (analyzeSentiment text).label =
      (if rawSentiment text > 0.3 then "Very Positive"
       else if rawSentiment text > 0.1 then "Positive"
       else if rawSentiment text > -0.1 then "Neutral"
       else if rawSentiment text > -0.3 then "Negative"
       else "Very Negative") := by
  refine ⟨?_, rfl, rfl⟩
  by_cases h : ((POS_STRONG ++ POS_MODERATE ++ POS_MILD ++ NEG_STRONG ++
      NEG_MODERATE ++ NEG_MILD).any (fun k => hasKw text k)) = true
  · rw [if_pos h]
    have hpos : 0 < sentTotalMatches text := (sentTotalMatches_pos_iff text).2 h
    simp only [analyzeSentiment, rawSentiment, if_pos hpos]
  · rw [if_neg h]
    have hz : ¬ 0 < sentTotalMatches text :=
      fun hp => h ((sentTotalMatches_pos_iff text).1 hp)
    simp only [analyzeSentiment, rawSentiment, if_neg hz]
    norm_num

/-- Claim C6, counterexample: V is a registry ticker, and the text "seven"
earns it the +10 direct-mention bonus (the lowercased ticker "v" is a
substring), although "v" occurs neither as a bare token nor prefixed with
a dollar sign. -/
theorem tickerBonus_claim_counterexample :
    directTickerBonus "V" ("seven").data = 10 ∧
    claimTickerToken "V" ("seven").data = false ∧
    "V" ∈ COMPANY_DATABASE.map Prod.fst := by
  decide

/-- Claim C6 as amended: the +10 direct-mention bonus is added if and only
if the lowercased ticker occurs as a plain substring of the lowercased
text (so occurrences inside longer words do count; the `$`-prefixed
alternative is subsumed by plain substring occurrence). -/
theorem directTickerBonus_substring (tk : String) (text : List Char) :
    directTickerBonus tk text =
      if containsSub (lowerStr tk).data text = true then 10 else 0 := by
  unfold directTickerBonus
  by_cases h : containsSub (lowerStr tk).data text = true
  · simp [h]
  · have h2 : containsSub ('$' :: (lowerStr tk).data) text = false := by
      cases hc : containsSub ('$' :: (lowerStr tk).data) text
      · rfl
      · exact absurd (containsSub_of_cons hc) h
    have h1 : containsSub (lowerStr tk).data text = false :=
      Bool.not_eq_true _ ▸ (Bool.eq_false_iff.2 (fun hc => h hc))
    simp [h1, h2]

/-- Claim C3: for every text the stock identification step returns
exactly the tickers whose accumulated relevance score is at least 2,
sorted descending by score (stably) and truncated to at most 6; if no
company reaches score 2, it returns the four fixed large-cap tickers when
a broad-market keyword occurs and the empty list otherwise. -/
theorem identifyConnectedStocks_spec (text : List Char) :
    identifyConnectedStocks text =
      if (sortDesc Prod.snd ((allScored text).filter (fun p => 2 ≤ p.2))).isEmpty then
        (if hasBroadMarket text then ["AAPL", "MSFT", "GOOGL", "AMZN"] else [])
      else ((sortDesc Prod.snd ((allScored text).filter
        (fun p => 2 ≤ p.2))).take 6).map Prod.fst := by
  have hcomm : (sortDesc Prod.snd ((allScored text).filter (fun p => 0 < p.2))).filter
      (fun p => 2 ≤ p.2) =
      sortDesc Prod.snd ((allScored text).filter (fun p => 2 ≤ p.2)) := by
    rw [filter_sortDesc, filter_two_of_pos]
  simp only [identifyConnectedStocks]
  rw [hcomm]
  by_cases hq : sortDesc Prod.snd ((allScored text).filter (fun p => 2 ≤ p.2)) = []
  · rw [hq]
    simp
  · have hlen : 0 < (sortDesc Prod.snd ((allScored text).filter
        (fun p => 2 ≤ p.2))).length := List.length_pos.2 hq
    rw [if_pos hlen]
    rw [if_neg (by simp [List.isEmpty_iff, hq])]

theorem affectedSectors_mem {text : List Char} {s : String}
    (h : s ∈ identifyAffectedSectors text) : s ∈ SECTOR_KEYWORDS.map Prod.fst := by
  unfold identifyAffectedSectors at h
  have h' := List.take_subset 5 _ h
  by_cases he : ((SECTOR_KEYWORDS.filter
      (fun e => e.2.any (fun k => containsSub k.data text))).map Prod.fst).isEmpty
  · rw [if_pos he] at h'
    simp only [List.mem_cons, List.not_mem_nil, or_false] at h'
    rcases h' with rfl | rfl | rfl <;> decide
  · rw [if_neg he] at h'
    rcases List.mem_map.1 h' with ⟨e, he2, rfl⟩
    exact List.mem_map_of_mem Prod.fst (List.mem_of_mem_filter he2)

theorem sectorImpacts_bounds {text : List Char} {sectors : List String}
    {se : MarketSector}
    (h : se ∈ generateSectorImpacts sectors text (analyzeSentiment text)) :
    se.name ∈ sectors ∧ 0 ≤ se.impactScore ∧ se.impactScore ≤ 1 := by
  unfold generateSectorImpacts at h
  rcases List.mem_map.1 h with ⟨sector, hsec, rfl⟩
  refine ⟨hsec, ?_, ?_⟩
  · show 0 ≤ ((analyzeSentiment text).score + calculateSectorRelevance text sector) / 2
    have h1 := (sentiment_score_bounds text).1
    have h2 := (sectorRelevance_bounds text sector).1
    linarith
  · show ((analyzeSentiment text).score + calculateSectorRelevance text sector) / 2 ≤ 1
    have h1 := (sentiment_score_bounds text).2
    have h2 := (sectorRelevance_bounds text sector).2
    linarith

/-- Claim C4: for every pair of input strings and every stream of random
draws, each stock impact's ticker is a registry key, each sector impact's
name is a key of the sector keyword table, every impact score and the
sentiment score lie in the unit interval, and every stock-impact
confidence and the sentiment confidence lie in the interval from 0.3 to
0.95. -/
theorem analysis_invariants (rand : ℕ → ℚ) (headline fullText : String) :
    ((analyzeArticleImpact rand headline fullText).stockImpacts.Forall
      (fun si => si.ticker ∈ COMPANY_DATABASE.map Prod.fst ∧
        0 ≤ si.impactScore ∧ si.impactScore ≤ 1 ∧
        (0.3 : ℚ) ≤ si.confidence ∧ si.confidence ≤ 0.95)) ∧
    ((analyzeArticleImpact rand headline fullText).sectorImpacts.Forall
      (fun se => se.name ∈ SECTOR_KEYWORDS.map Prod.fst ∧
        0 ≤ se.impactScore ∧ se.impactScore ≤ 1)) ∧
    (0 ≤ (analyzeArticleImpact rand headline fullText).overallMarketSentiment.score ∧
      (analyzeArticleImpact rand headline fullText).overallMarketSentiment.score ≤ 1) ∧
    ((0.3 : ℚ) ≤
        (analyzeArticleImpact rand headline fullText).overallMarketSentiment.confidence ∧
      (analyzeArticleImpact rand headline fullText).overallMarketSentiment.confidence
        ≤ 0.95) := by
  simp only [analyzeArticleImpact]
  refine ⟨?_, ?_, ?_, ?_⟩
  · refine List.forall_iff_forall_mem.2 (fun si hsi => ?_)
    exact @generateStockImpacts_prop rand _ _ _
      (fun si => si.ticker ∈ COMPANY_DATABASE.map Prod.fst ∧ 0 ≤ si.impactScore ∧
        si.impactScore ≤ 1 ∧ (0.3 : ℚ) ≤ si.confidence ∧ si.confidence ≤ 0.95)
      (fun tk co i hco => ⟨lookupCompany_mem hco,
        (calculateImpactScore_bounds tk co _ _).1,
        (calculateImpactScore_bounds tk co _ _).2,
        (calculateConfidence_bounds tk co _ _ _).1,
        (calculateConfidence_bounds tk co _ _ _).2⟩)
      si hsi
  · refine List.forall_iff_forall_mem.2 (fun se hse => ?_)
    have h2 := mem_sortDesc.1 hse
    have h3 := sectorImpacts_bounds h2
    exact ⟨affectedSectors_mem h3.1, h3.2.1, h3.2.2⟩
  · exact sentiment_score_bounds _
  · exact sentiment_conf_bounds _

/-- Claim C7: for every pair of inputs and every stream of random draws,
the returned stockImpacts list is sorted by descending distance of the
impact score from 0.5: any earlier entry is at least as far from 0.5 as
any later entry. -/
theorem stockImpacts_sorted (rand : ℕ → ℚ) (headline fullText : String) :
    (analyzeArticleImpact rand headline fullText).stockImpacts.Pairwise
      (fun a b => |b.impactScore - 0.5| ≤ |a.impactScore - 0.5|) := by
  simp only [analyzeArticleImpact, generateStockImpacts]
  exact pairwise_sortDesc _ _

/-- Claim C8: the timeframe classification applies its rules in strict
priority order with the first match winning (it coincides with the
claim's rule list for every text, impact score and confidence); in
particular a text containing both "breaking" and "long-term" is
classified Immediate. -/
theorem timeframe_priority (text : List Char) (impactScore confidence : ℚ) :
    determineDynamicTimeframe text impactScore confidence =
      specTimeframe text impactScore confidence ∧
    determineDynamicTimeframe ("breaking: company unveils long-term roadmap").data
      impactScore confidence = "Immediate" := by
  constructor
  · rfl
  · have h : (immediateKeywords.any (fun k => containsSub k.data
        (("breaking: company unveils long-term roadmap").data.map lowChar))) = true := by
      decide
    simp only [determineDynamicTimeframe]
    rw [h]
    simp

/-- Claim C9: with every random draw of the confidence jitter pinned to
one fixed value, the analysis is deterministic: two runs on identical
inputs with the pinned stream return identical results in every field.
The jitter stream is the only non-input parameter of the embedded
pipeline, which is otherwise a pure function of the two strings. -/
theorem determinism_modulo_jitter (c : ℚ) (r₁ r₂ : ℕ → ℚ)
    (headline fullText : String)
    (h₁ : r₁ = fun _ => c) (h₂ : r₂ = fun _ => c) :
    analyzeArticleImpact r₁ headline fullText =
      analyzeArticleImpact r₂ headline fullText := by
  subst h₁
  subst h₂
  rfl

/-- Witness for `determinism_modulo_jitter` at the pinned draw 0 and empty
inputs. -/
theorem determinism_modulo_jitter_witness :
    analyzeArticleImpact (fun _ => (0 : ℚ)) "" "" =
      analyzeArticleImpact (fun _ => (0 : ℚ)) "" "" :=
  determinism_modulo_jitter 0 _ _ "" "" rfl rfl

/-- Claim C10: every stock impact the engine produces carries a price
target (the optional field is never `none`), and its `current` value
equals the ticker's entry in the static base-price table, with 100 for a
ticker absent from that table. -/
theorem priceTarget_always_present (rand : ℕ → ℚ) (headline fullText : String) :
    (analyzeArticleImpact rand headline fullText).stockImpacts.Forall
      (fun si => ∃ pt, si.priceTarget = some pt ∧
        pt.current = basePriceOf si.ticker) := by
  refine List.forall_iff_forall_mem.2 (fun si hsi => ?_)
  exact @generateStockImpacts_prop rand _ _ _
    (fun si => ∃ pt, si.priceTarget = some pt ∧ pt.current = basePriceOf si.ticker)
    (fun tk co i hco => ⟨_, rfl, rfl⟩) si hsi


theorem identify_space : identifyConnectedStocks [' '] = [] := by
  have hA : relevanceScore "AAPL" ⟨"Apple Inc.", "Technology", 3000000000000⟩ [' '] = 0 :=
    relevanceScore_zero (by decide) (by decide) (by decide) (by decide) (by decide)
  have hM : relevanceScore "MSFT" ⟨"Microsoft Corporation", "Technology", 2800000000000⟩ [' '] = 0 :=
    relevanceScore_zero (by decide) (by decide) (by decide) (by decide) (by decide)
  have hG : relevanceScore "GOOGL" ⟨"Alphabet Inc.", "Technology", 1700000000000⟩ [' '] = 0 :=
    relevanceScore_zero (by decide) (by decide) (by decide) (by decide) (by decide)
  have hAm : relevanceScore "AMZN" ⟨"Amazon.com Inc.", "Consumer Discretionary", 1500000000000⟩ [' '] = 0 :=
    relevanceScore_zero (by decide) (by decide) (by decide) (by decide) (by decide)
  have hT : relevanceScore "TSLA" ⟨"Tesla Inc.", "Consumer Discretionary", 800000000000⟩ [' '] = 0 :=
    relevanceScore_zero (by decide) (by decide) (by decide) (by decide) (by decide)
  have hMe : relevanceScore "META" ⟨"Meta Platforms Inc.", "Technology", 750000000000⟩ [' '] = 0 :=
    relevanceScore_zero (by decide) (by decide) (by decide) (by decide) (by decide)
  have hN : relevanceScore "NVDA" ⟨"NVIDIA Corporation", "Technology", 1800000000000⟩ [' '] = 0 :=
    relevanceScore_zero (by decide) (by decide) (by decide) (by decide) (by decide)
  have hJ : relevanceScore "JPM" ⟨"JPMorgan Chase & Co.", "Financial Services", 450000000000⟩ [' '] = 0 :=
    relevanceScore_zero (by decide) (by decide) (by decide) (by decide) (by decide)
  have hJn : relevanceScore "JNJ" ⟨"Johnson & Johnson", "Healthcare", 400000000000⟩ [' '] = 0 :=
    relevanceScore_zero (by decide) (by decide) (by decide) (by decide) (by decide)
  have hV : relevanceScore "V" ⟨"Visa Inc.", "Financial Services", 500000000000⟩ [' '] = 0 :=
    relevanceScore_zero (by decide) (by decide) (by decide) (by decide) (by decide)
  have hP : relevanceScore "PG" ⟨"Procter & Gamble Co.", "Consumer Staples", 350000000000⟩ [' '] = 0 :=
    relevanceScore_zero (by decide) (by decide) (by decide) (by decide) (by decide)
  have hU : relevanceScore "UNH" ⟨"UnitedHealth Group Inc.", "Healthcare", 480000000000⟩ [' '] = 0 :=
    relevanceScore_zero (by decide) (by decide) (by decide) (by decide) (by decide)
  have hH : relevanceScore "HD" ⟨"The Home Depot Inc.", "Consumer Discretionary", 320000000000⟩ [' '] = 0 :=
    relevanceScore_zero (by decide) (by decide) (by decide) (by decide) (by decide)
  have hMa : relevanceScore "MA" ⟨"Mastercard Inc.", "Financial Services", 380000000000⟩ [' '] = 0 :=
    relevanceScore_zero (by decide) (by decide) (by decide) (by decide) (by decide)
  have hB : relevanceScore "BAC" ⟨"Bank of America Corp.", "Financial Services", 280000000000⟩ [' '] = 0 :=
    relevanceScore_zero (by decide) (by decide) (by decide) (by decide) (by decide)
  unfold identifyConnectedStocks allScored COMPANY_DATABASE
  simp only [List.map_cons, List.map_nil, hA, hM, hG, hAm, hT, hMe, hN, hJ, hJn,
    hV, hP, hU, hH, hMa, hB]
  decide

theorem sentiment_space : analyzeSentiment [' '] = ⟨1/2, "Neutral", 1/2⟩ := by
  have htm : sentTotalMatches [' '] = 0 := by decide
  have hraw : rawSentiment [' '] = 0 := by
    unfold rawSentiment
    rw [htm]
    norm_num
  unfold analyzeSentiment
  rw [hraw, htm]
  unfold sentimentLabel
  norm_num [min_def, max_def]

theorem sectors_space :
    generateSectorImpacts ["Technology", "Financial Services", "Healthcare"] [' ']
        ⟨1/2, "Neutral", 1/2⟩ =
      [⟨"Technology", 1/4, ["AAPL", "MSFT", "GOOGL", "META"],
          SectorReason.indirect "Neutral"⟩,
        ⟨"Financial Services", 1/4, ["JPM", "V", "MA", "BAC"],
          SectorReason.indirect "Neutral"⟩,
        ⟨"Healthcare", 1/4, ["JNJ", "UNH"], SectorReason.indirect "Neutral"⟩] := by
  have hT : calculateSectorRelevance [' '] "Technology" = 0 := by
    unfold calculateSectorRelevance
    rw [(by decide : countKw [' '] (sectorKeywordsOf "Technology") = 0)]
    norm_num
  have hF : calculateSectorRelevance [' '] "Financial Services" = 0 := by
    unfold calculateSectorRelevance
    rw [(by decide : countKw [' '] (sectorKeywordsOf "Financial Services") = 0)]
    norm_num
  have hH : calculateSectorRelevance [' '] "Healthcare" = 0 := by
    unfold calculateSectorRelevance
    rw [(by decide : countKw [' '] (sectorKeywordsOf "Healthcare") = 0)]
    norm_num
  have hrT : generateSectorReasoning "Technology" [' '] ⟨1/2, "Neutral", 1/2⟩ =
      SectorReason.indirect "Neutral" := by
    unfold generateSectorReasoning
    rw [(by decide : (sectorKeywordsOf "Technology").filter (fun k => hasKw [' '] k) = [])]
    rfl
  have hrF : generateSectorReasoning "Financial Services" [' '] ⟨1/2, "Neutral", 1/2⟩ =
      SectorReason.indirect "Neutral" := by
    unfold generateSectorReasoning
    rw [(by decide : (sectorKeywordsOf "Financial Services").filter
      (fun k => hasKw [' '] k) = [])]
    rfl
  have hrH : generateSectorReasoning "Healthcare" [' '] ⟨1/2, "Neutral", 1/2⟩ =
      SectorReason.indirect "Neutral" := by
    unfold generateSectorReasoning
    rw [(by decide : (sectorKeywordsOf "Healthcare").filter (fun k => hasKw [' '] k) = [])]
    rfl
  unfold generateSectorImpacts
  simp only [List.map_cons, List.map_nil, hT, hF, hH, hrT, hrF, hrH]
  norm_num
  exact ⟨by decide, by decide, by decide⟩

theorem sort_sectors_space :
    sortDesc (fun se => |se.impactScore - 0.5|)
      [(⟨"Technology", 1/4, ["AAPL", "MSFT", "GOOGL", "META"],
          SectorReason.indirect "Neutral"⟩ : MarketSector),
        ⟨"Financial Services", 1/4, ["JPM", "V", "MA", "BAC"],
          SectorReason.indirect "Neutral"⟩,
        ⟨"Healthcare", 1/4, ["JNJ", "UNH"], SectorReason.indirect "Neutral"⟩] =
      [⟨"Technology", 1/4, ["AAPL", "MSFT", "GOOGL", "META"],
          SectorReason.indirect "Neutral"⟩,
        ⟨"Financial Services", 1/4, ["JPM", "V", "MA", "BAC"],
          SectorReason.indirect "Neutral"⟩,
        ⟨"Healthcare", 1/4, ["JNJ", "UNH"], SectorReason.indirect "Neutral"⟩] := by
  simp [sortDesc, insertDesc]

theorem insights_space :
    generateKeyInsights []
      [(⟨"Technology", 1/4, ["AAPL", "MSFT", "GOOGL", "META"],
          SectorReason.indirect "Neutral"⟩ : MarketSector),
        ⟨"Financial Services", 1/4, ["JPM", "V", "MA", "BAC"],
          SectorReason.indirect "Neutral"⟩,
        ⟨"Healthcare", 1/4, ["JNJ", "UNH"], SectorReason.indirect "Neutral"⟩] =
      [InsightItem.topSector "Technology", InsightItem.marketBreadth 0 0] := by
  norm_num [generateKeyInsights]

theorem risks_space :
    identifyRiskFactors [' '] ⟨1/2, "Neutral", 1/2⟩ =
      [RiskItem.moderateConfidence, RiskItem.genericRisk] := by
  unfold identifyRiskFactors
  rw [(by decide : hasKw [' '] "regulation" = false),
    (by decide : hasKw [' '] "policy" = false),
    (by decide : hasKw [' '] "inflation" = false),
    (by decide : hasKw [' '] "interest rate" = false),
    (by decide : hasKw [' '] "geopolitical" = false),
    (by decide : hasKw [' '] "trade" = false)]
  norm_num

theorem opps_space :
    identifyOpportunities [' '] ⟨1/2, "Neutral", 1/2⟩ = [OppItem.genericOpportunity] := by
  unfold identifyOpportunities
  rw [(by decide : hasKw [' '] "innovation" = false),
    (by decide : hasKw [' '] "technology" = false),
    (by decide : hasKw [' '] "earnings" = false),
    (by decide : hasKw [' '] "revenue" = false),
    (by decide : hasKw [' '] "merger" = false),
    (by decide : hasKw [' '] "acquisition" = false)]
  norm_num

/-- Claim C5: the analysis of the empty headline and empty body returns an
empty stockImpacts list, the default sector list Technology, Financial
Services, Healthcare (in that order), an overall sentiment with score 1/2
(raw 0 mapped to the unit interval) and label Neutral, and non-empty
keyInsights, riskFactors and opportunities lists, for every stream of
random draws.  The embedded engine is a total function of its two string
inputs, so no input can make it fail. -/
theorem empty_input_analysis (rand : ℕ → ℚ) :
    (analyzeArticleImpact rand "" "").stockImpacts = [] ∧
    (analyzeArticleImpact rand "" "").sectorImpacts.map MarketSector.name =
      ["Technology", "Financial Services", "Healthcare"] ∧
    (analyzeArticleImpact rand "" "").overallMarketSentiment.score = 1/2 ∧
    (analyzeArticleImpact rand "" "").overallMarketSentiment.label = "Neutral" ∧
    (analyzeArticleImpact rand "" "").keyInsights ≠ [] ∧
    (analyzeArticleImpact rand "" "").riskFactors ≠ [] ∧
    (analyzeArticleImpact rand "" "").opportunities ≠ [] := by
  have hct : ("" ++ " " ++ "").data.map lowChar = [' '] := by decide
  have hsec : identifyAffectedSectors [' '] =
      ["Technology", "Financial Services", "Healthcare"] := by decide
  have hstocks : generateStockImpacts rand [] [' '] ⟨1/2, "Neutral", 1/2⟩ = [] := rfl
  simp only [analyzeArticleImpact, hct, identify_space, sentiment_space, hsec,
    sectors_space, sort_sectors_space, hstocks, insights_space, risks_space, opps_space]
  norm_num
  exact ⟨List.cons_ne_nil _ _, List.cons_ne_nil _ _⟩

end Stocksense
